import Mathlib

/-!
Shallow embedding of the Kornia data-augmentation tutorial script
(`lightning_examples/augmentation_kornia/augmentation.py`): the
`Preprocess` and `DataAugmentation` modules, the `CoolSystem` Lightning
module (forward, loss, training and validation steps, dataloaders) and
the loader batching behaviour.  External library components (the
resnet18 network, the internals of the random Kornia transforms, the
torch DataLoader) are modelled at the level of their documented
interfaces; the randomness the library samples per invocation is made
explicit as a bundle of draws passed to each call.
-/

/-- A 4-dimensional tensor batch (N x C x H x W).  The dimensions are
explicit fields and `data` is total on natural indices; only indices
below the dimensions are meaningful. -/
structure Tensor4 where
  N : ℕ
  C : ℕ
  H : ℕ
  W : ℕ
  data : ℕ → ℕ → ℕ → ℕ → ℚ

/-- The shape quadruple of a tensor batch. -/
def Tensor4.dims (t : Tensor4) : ℕ × ℕ × ℕ × ℕ := (t.N, t.C, t.H, t.W)

/-- Per-invocation random draws consumed by the augmentation pipeline:
the uniform numbers gating each probabilistic transform, the sampled
per-image channel permutation, the sampled thin-plate-spline
source-coordinate maps, and the sampled colour-jitter intensity map.
The warp and jitter internals are external library code; they are
modelled as the sampled index/value maps they amount to, which act
pointwise on the index grid and therefore preserve tensor shape. -/
structure AugDraws where
  rFlip : ℚ
  rShuffle : ℚ
  rTps : ℚ
  chanPerm : ℕ → ℕ → ℕ
  tpsSrcH : ℕ → ℕ → ℕ → ℕ
  tpsSrcW : ℕ → ℕ → ℕ → ℕ
  jitterMap : ℕ → ℚ → ℚ

/-- Horizontal flip of every image in the batch: reverse the W axis. -/
def hflip (t : Tensor4) : Tensor4 :=
  ⟨t.N, t.C, t.H, t.W, fun n c h w => t.data n c h (t.W - 1 - w)⟩

/-- Channel shuffle: permute the colour channels of each image by the
sampled permutation. -/
def channelShuffle (d : AugDraws) (t : Tensor4) : Tensor4 :=
  ⟨t.N, t.C, t.H, t.W, fun n c h w => t.data n (d.chanPerm n c) h w⟩

/-- Thin-plate-spline warp: resample each image at the sampled source
coordinates. -/
def tpsWarp (d : AugDraws) (t : Tensor4) : Tensor4 :=
  ⟨t.N, t.C, t.H, t.W, fun n c h w => t.data n c (d.tpsSrcH n h w) (d.tpsSrcW n h w)⟩

/-- Colour jitter: apply the sampled per-channel intensity map to every
pixel value. -/
def colorJitter (d : AugDraws) (t : Tensor4) : Tensor4 :=
  ⟨t.N, t.C, t.H, t.W, fun n c h w => d.jitterMap c (t.data n c h w)⟩

/-- Probability gate of the random Kornia transforms: the transform
fires exactly when the uniform draw `r` falls below the probability
`p` the module was constructed with. -/
def randomApply (p : ℚ) (f : Tensor4 → Tensor4) (r : ℚ) (t : Tensor4) : Tensor4 :=
  if r < p then f t else t

/-- nn.Sequential: apply the listed modules in order. -/
def nnSequential (mods : List (Tensor4 → Tensor4)) (x : Tensor4) : Tensor4 :=
  mods.foldl (fun t m => m t) x

/-- The DataAugmentation module.  Its only construction-time state is
the `apply_color_jitter` flag; the transform submodules are fixed. -/
structure DataAugmentation where
  apply_color_jitter : Bool

/-- DataAugmentation(): the constructor leaves colour jitter off by
default. -/
def defaultDataAugmentation : DataAugmentation := ⟨false⟩

/-- self.transforms: nn.Sequential of RandomHorizontalFlip(p=0.75),
RandomChannelShuffle(p=0.75), RandomThinPlateSpline(p=0.75). -/
def DataAugmentation.transformsSeq (d : AugDraws) (x : Tensor4) : Tensor4 :=
  nnSequential
    [randomApply (3 / 4) hflip d.rFlip,
     randomApply (3 / 4) (channelShuffle d) d.rShuffle,
     randomApply (3 / 4) (tpsWarp d) d.rTps] x

/-- DataAugmentation.forward: run the sequential transforms, then the
ColorJitter(0.5, 0.5, 0.5, 0.5) stage when the flag was set at
construction time. -/
def DataAugmentation.forward (da : DataAugmentation) (d : AugDraws) (x : Tensor4) : Tensor4 :=
  let x_out := DataAugmentation.transformsSeq d x
  if da.apply_color_jitter then colorJitter d x_out else x_out

/-- A raw 8-bit image sample as delivered by the dataset: an H x W x C
grid of byte pixel values. -/
structure RawImage where
  H : ℕ
  W : ℕ
  C : ℕ
  pix : ℕ → ℕ → ℕ → Fin 256

/-- A single channel-first tensor (C x H x W). -/
structure Tensor3 where
  C : ℕ
  H : ℕ
  W : ℕ
  data : ℕ → ℕ → ℕ → ℚ

/-- kornia.image_to_tensor: cast the H x W x C byte grid into a
channel-first C x H x W numeric tensor (values still in 0..255). -/
def image_to_tensor (x : RawImage) : Tensor3 :=
  ⟨x.C, x.H, x.W, fun c h w => ((x.pix h w c : ℕ) : ℚ)⟩

/-- Preprocess.forward: convert the raw image to a channel-first tensor
and scale it to the unit interval by dividing by 255. -/
def Preprocess.forward (x : RawImage) : Tensor3 :=
  let t := image_to_tensor x
  ⟨t.C, t.H, t.W, fun c h w => t.data c h w / 255⟩

/-- One logged metric row: the metric name, its scalar value, and the
prog_bar flag passed to self.log. -/
structure LogEntry where
  name : String
  value : ℝ
  prog_bar : Bool

/-- CoolSystem state.  The resnet18 classifier is an external
collaborator, so it is modelled as an abstract parameter vector
`params` together with the network function `net` mapping parameters
and an input batch to per-row class scores; `transform` is the owned
DataAugmentation instance, `preprocess` the per-sample transform
handed to the datasets, and `accState` the running (correct, total)
state of the torchmetrics Accuracy instance. -/
structure CoolSystem where
  numClasses : ℕ
  params : List ℝ
  net : List ℝ → Tensor4 → ℕ → Fin numClasses → ℝ
  transform : DataAugmentation
  preprocess : RawImage → Tensor3
  accState : ℕ × ℕ

/-- Row-wise softmax over the class dimension (F.softmax on a 2-d score
matrix). -/
noncomputable def softmaxRows {K : ℕ} (z : ℕ → Fin K → ℝ) : ℕ → Fin K → ℝ :=
  fun i j => Real.exp (z i j) / ∑ k, Real.exp (z i k)

/-- F.cross_entropy with integer class targets, on score rows `z` over
`n` rows: the mean over the batch of log-sum-exp of the row minus the
score of the true class. -/
noncomputable def crossEntropy {K : ℕ} (z : ℕ → Fin K → ℝ) (y : ℕ → Fin K) (n : ℕ) : ℝ :=
  (∑ i in Finset.range n, (Real.log (∑ j, Real.exp (z i j)) - z i (y i))) / n

open Classical in
/-- Number of rows among the first `n` whose true class attains the
maximal score: the batch's correctly-classified count. -/
noncomputable def correctCount {K : ℕ} (z : ℕ → Fin K → ℝ) (y : ℕ → Fin K) (n : ℕ) : ℕ :=
  ((Finset.range n).filter fun i => ∀ j, z i j ≤ z i (y i)).card

/-- The batch accuracy value returned by calling the torchmetrics
Accuracy instance on one batch. -/
noncomputable def batchAccuracy {K : ℕ} (z : ℕ → Fin K → ℝ) (y : ℕ → Fin K) (n : ℕ) : ℝ :=
  (correctCount z y n : ℝ) / n

/-- Calling self.accuracy(y_hat, y): update the running (correct,
total) accumulator and return the batch accuracy. -/
noncomputable def accuracyCall {K : ℕ} (s : ℕ × ℕ) (z : ℕ → Fin K → ℝ) (y : ℕ → Fin K)
    (n : ℕ) : (ℕ × ℕ) × ℝ :=
  ((s.1 + correctCount z y n, s.2 + n), batchAccuracy z y n)

/-- CoolSystem.forward: run the model and apply a softmax to produce
class probabilities. -/
noncomputable def CoolSystem.forward (cs : CoolSystem) (x : Tensor4) :
    ℕ → Fin cs.numClasses → ℝ :=
  softmaxRows (cs.net cs.params x)

/-- CoolSystem.compute_loss: F.cross_entropy of the predictions against
the labels. -/
noncomputable def CoolSystem.compute_loss (cs : CoolSystem)
    (y_hat : ℕ → Fin cs.numClasses → ℝ) (y : ℕ → Fin cs.numClasses) (n : ℕ) : ℝ :=
  crossEntropy y_hat y n

/-- Result of one training step: the updated module state, the logged
metric rows, and the loss value returned to the driver. -/
structure TrainStepResult where
  state : CoolSystem
  logs : List LogEntry
  loss : ℝ

/-- Result of one validation step: the updated module state and the
logged metric rows (the step returns no value). -/
structure ValStepResult where
  state : CoolSystem
  logs : List LogEntry

/-- Replace the accuracy-accumulator state, the only CoolSystem field
the step functions mutate. -/
def CoolSystem.setAcc (cs : CoolSystem) (a : ℕ × ℕ) : CoolSystem :=
  ⟨cs.numClasses, cs.params, cs.net, cs.transform, cs.preprocess, a⟩

/-- CoolSystem.training_step on the batch (x, y): augment the batch,
run forward, compute the loss, log train_loss and train_acc, return
the loss. -/
noncomputable def CoolSystem.training_step (cs : CoolSystem) (d : AugDraws) (x : Tensor4)
    (y : ℕ → Fin cs.numClasses) : TrainStepResult :=
  let x_aug := cs.transform.forward d x
  let y_hat := cs.forward x_aug
  let loss := cs.compute_loss y_hat y x.N
  let acc := accuracyCall cs.accState y_hat y x.N
  ⟨cs.setAcc acc.1,
   [⟨"train_loss", loss, false⟩, ⟨"train_acc", acc.2, false⟩],
   loss⟩

/-- CoolSystem.validation_step on the batch (x, y): run forward on the
batch as given, compute the loss, log valid_loss and valid_acc (the
latter on the progress bar). -/
noncomputable def CoolSystem.validation_step (cs : CoolSystem) (x : Tensor4)
    (y : ℕ → Fin cs.numClasses) : ValStepResult :=
  let y_hat := cs.forward x
  let loss := cs.compute_loss y_hat y x.N
  let acc := accuracyCall cs.accState y_hat y x.N
  ⟨cs.setAcc acc.1,
   [⟨"valid_loss", loss, false⟩, ⟨"valid_acc", acc.2, true⟩]⟩

/-- The CIFAR10 dataset construction as configured by the script: which
split is requested and the per-sample transform applied at read time. -/
structure CIFAR10Spec where
  train : Bool
  transform : RawImage → Tensor3

/-- torch DataLoader configuration: the dataset, the batch size, and
the shuffle argument, which defaults to false when not passed. -/
structure DataLoaderCfg where
  dataset : CIFAR10Spec
  batch_size : ℕ
  shuffle : Bool

/-- CoolSystem.train_dataloader: CIFAR10(train=True) with
self.preprocess, wrapped in DataLoader(dataset, batch_size=32); the
shuffle argument is not passed, so it stays at its default false. -/
def CoolSystem.train_dataloader (cs : CoolSystem) : DataLoaderCfg :=
  ⟨⟨true, cs.preprocess⟩, 32, false⟩

/-- CoolSystem.val_dataloader: also CIFAR10(train=True) with
self.preprocess, wrapped in DataLoader(dataset, batch_size=32). -/
def CoolSystem.val_dataloader (cs : CoolSystem) : DataLoaderCfg :=
  ⟨⟨true, cs.preprocess⟩, 32, false⟩

/-- Split a list into consecutive chunks of size `n` (fuel-indexed
recursion; fuel equal to the list length suffices because every step
consumes at least the head). -/
def chunkAux {α : Type} (n : ℕ) : ℕ → List α → List (List α)
  | 0, _ => []
  | _, [] => []
  | fuel + 1, a :: as => (a :: as.take (n - 1)) :: chunkAux n fuel (as.drop (n - 1))

/-- Consecutive chunks of size `n` of a list. -/
def chunkBatches {α : Type} (n : ℕ) (xs : List α) : List (List α) :=
  chunkAux n xs.length xs

/-- The mini-batches a loader yields over the dataset's sample list:
when shuffle is set the externally sampled reorder is applied first,
otherwise the samples are batched in dataset order. -/
def loaderBatches {α : Type} (l : DataLoaderCfg) (reorder : List α → List α)
    (xs : List α) : List (List α) :=
  chunkBatches l.batch_size (if l.shuffle then reorder xs else xs)

/-- A concrete CoolSystem instance (with a trivial network) used to
evaluate the loader configuration at a closed point. -/
noncomputable def demoSystem : CoolSystem :=
  ⟨10, [], fun _ _ _ _ => 0, defaultDataAugmentation, Preprocess.forward, (0, 0)⟩

/- ------------------------------------------------------------------ -/
/- Theorems                                                           -/
/- ------------------------------------------------------------------ -/

theorem hflip_dims (t : Tensor4) : (hflip t).dims = t.dims := rfl

theorem channelShuffle_dims (d : AugDraws) (t : Tensor4) :
    (channelShuffle d t).dims = t.dims := rfl

theorem tpsWarp_dims (d : AugDraws) (t : Tensor4) : (tpsWarp d t).dims = t.dims := rfl

theorem colorJitter_dims (d : AugDraws) (t : Tensor4) :
    (colorJitter d t).dims = t.dims := rfl

theorem randomApply_dims (p r : ℚ) (f : Tensor4 → Tensor4)
    (hf : ∀ t, (f t).dims = t.dims) (t : Tensor4) :
    (randomApply p f r t).dims = t.dims := by
  unfold randomApply
  split
  · exact hf t
  · rfl

theorem transformsSeq_dims (d : AugDraws) (x : Tensor4) :
    (DataAugmentation.transformsSeq d x).dims = x.dims := by
  unfold DataAugmentation.transformsSeq nnSequential
  simp only [List.foldl]
  rw [randomApply_dims _ _ _ (tpsWarp_dims d),
    randomApply_dims _ _ _ (channelShuffle_dims d),
    randomApply_dims _ _ _ hflip_dims]

theorem dataAug_forward_dims (da : DataAugmentation) (d : AugDraws) (x : Tensor4) :
    (da.forward d x).dims = x.dims := by
  unfold DataAugmentation.forward
  dsimp only
  split
  · rw [colorJitter_dims, transformsSeq_dims]
  · exact transformsSeq_dims d x

/-- Claim C7: DataAugmentation.forward preserves the batch shape — the
output tensor has the same N, C, H and W as the input batch. -/
theorem dataAug_preserves_shape (da : DataAugmentation) (d : AugDraws) (x : Tensor4) :
    (da.forward d x).N = x.N ∧ (da.forward d x).C = x.C ∧
      (da.forward d x).H = x.H ∧ (da.forward d x).W = x.W := by
  have h := dataAug_forward_dims da d x
  exact ⟨congrArg (fun p => p.1) h, congrArg (fun p => p.2.1) h,
    congrArg (fun p => p.2.2.1) h, congrArg (fun p => p.2.2.2) h⟩

/-- Claim C3: the augmentation pipeline applies, in this fixed order, a
probability-0.75 horizontal flip, a probability-0.75 channel shuffle, a
probability-0.75 thin-plate-spline warp, and only after these the
optional colour jitter. -/
theorem dataAug_fixed_order (da : DataAugmentation) (d : AugDraws) (x : Tensor4) :
    da.forward d x =
      (if da.apply_color_jitter then
        colorJitter d (randomApply (3 / 4) (tpsWarp d) d.rTps
          (randomApply (3 / 4) (channelShuffle d) d.rShuffle
            (randomApply (3 / 4) hflip d.rFlip x)))
      else
        randomApply (3 / 4) (tpsWarp d) d.rTps
          (randomApply (3 / 4) (channelShuffle d) d.rShuffle
            (randomApply (3 / 4) hflip d.rFlip x))) := rfl

/-- Claim C4: with the constructor default (colour jitter off), forward
is exactly the flip/shuffle/warp sequence; the jitter stage never
runs. -/
theorem dataAug_default_no_jitter (d : AugDraws) (x : Tensor4) :
    defaultDataAugmentation.apply_color_jitter = false ∧
      defaultDataAugmentation.forward d x = DataAugmentation.transformsSeq d x :=
  ⟨rfl, rfl⟩

/-- Claim C6: Preprocess returns a channel-first C x H x W tensor whose
values all lie in [0, 1], and it is deterministic: it is a pure
function of the raw image, so two calls on the same image agree. -/
theorem preprocess_unit_interval_deterministic (x : RawImage) :
    ((Preprocess.forward x).C = x.C ∧ (Preprocess.forward x).H = x.H ∧
        (Preprocess.forward x).W = x.W) ∧
      (∀ c h w, 0 ≤ (Preprocess.forward x).data c h w ∧
        (Preprocess.forward x).data c h w ≤ 1) ∧
      Preprocess.forward x = Preprocess.forward x := by
  refine ⟨⟨rfl, rfl, rfl⟩, fun c h w => ?_, rfl⟩
  show 0 ≤ ((x.pix h w c : ℕ) : ℚ) / 255 ∧ ((x.pix h w c : ℕ) : ℚ) / 255 ≤ 1
  constructor
  · exact div_nonneg (Nat.cast_nonneg _) (by norm_num)
  · rw [div_le_one (by norm_num)]
    exact_mod_cast Nat.lt_succ_iff.mp (x.pix h w c).isLt

/-- Claim C1: training_step augments the batch with the owned
DataAugmentation instance, feeds the augmented batch to forward (the
network followed by a row-wise softmax), takes the cross-entropy loss
of the predictions against the labels, logs train_loss and train_acc,
and returns that loss. -/
theorem training_step_spec (cs : CoolSystem) (d : AugDraws) (x : Tensor4)
    (y : ℕ → Fin cs.numClasses) :
    (cs.training_step d x y).loss
        = crossEntropy (softmaxRows (cs.net cs.params (cs.transform.forward d x))) y x.N ∧
      (cs.training_step d x y).logs
        = [⟨"train_loss", (cs.training_step d x y).loss, false⟩,
           ⟨"train_acc",
            batchAccuracy (softmaxRows (cs.net cs.params (cs.transform.forward d x))) y x.N,
            false⟩] :=
  ⟨rfl, rfl⟩

/-- Claim C2: validation_step runs forward on the batch exactly as it
arrives (no DataAugmentation), computes the cross-entropy loss, and
logs valid_loss and valid_acc, the latter with prog_bar set. -/
theorem validation_step_spec (cs : CoolSystem) (x : Tensor4) (y : ℕ → Fin cs.numClasses) :
    (cs.validation_step x y).logs
      = [⟨"valid_loss", crossEntropy (softmaxRows (cs.net cs.params x)) y x.N, false⟩,
         ⟨"valid_acc", batchAccuracy (softmaxRows (cs.net cs.params x)) y x.N, true⟩] := rfl

/-- Claim C5: a validation step leaves the model parameters untouched;
the state after the call carries exactly the parameters it started
with. -/
theorem validation_step_preserves_params (cs : CoolSystem) (x : Tensor4)
    (y : ℕ → Fin cs.numClasses) :
    (cs.validation_step x y).state.params = cs.params := rfl

theorem crossEntropy_nonneg {K : ℕ} (z : ℕ → Fin K → ℝ) (y : ℕ → Fin K) (n : ℕ) :
    0 ≤ crossEntropy z y n := by
  unfold crossEntropy
  apply div_nonneg _ (Nat.cast_nonneg n)
  apply Finset.sum_nonneg
  intro i _
  have h1 : Real.exp (z i (y i)) ≤ ∑ j, Real.exp (z i j) :=
    Finset.single_le_sum (fun j _ => (Real.exp_pos (z i j)).le) (Finset.mem_univ (y i))
  have h2 : z i (y i) ≤ Real.log (∑ j, Real.exp (z i j)) := by
    have h3 := Real.log_le_log (Real.exp_pos (z i (y i))) h1
    rwa [Real.log_exp] at h3
  linarith

/-- Claim C8: the scalar loss returned by training_step is
non-negative for every batch. -/
theorem training_step_loss_nonneg (cs : CoolSystem) (d : AugDraws) (x : Tensor4)
    (y : ℕ → Fin cs.numClasses) :
    0 ≤ (cs.training_step d x y).loss :=
  crossEntropy_nonneg (softmaxRows (cs.net cs.params (cs.transform.forward d x))) y x.N

/-- Claim C9 fails as stated: the training loader is constructed with
shuffle left at its default false, and on the concrete sample list
[0, 1, 2, 3] its batches keep dataset order rather than reordering
the samples. -/
theorem train_loader_not_shuffled :
    demoSystem.train_dataloader.shuffle = false ∧
      loaderBatches demoSystem.train_dataloader List.reverse [0, 1, 2, 3]
        = [[0, 1, 2, 3]] :=
  ⟨rfl, rfl⟩

/-- Claim C9 amended: train_dataloader yields mini-batches of size 32
with shuffling disabled (the DataLoader default), so the loader batches
the dataset's samples in their original order. -/
theorem train_loader_inorder_batches (cs : CoolSystem) (reorder : List ℕ → List ℕ)
    (xs : List ℕ) :
    cs.train_dataloader.batch_size = 32 ∧ cs.train_dataloader.shuffle = false ∧
      loaderBatches cs.train_dataloader reorder xs = chunkBatches 32 xs :=
  ⟨rfl, rfl, rfl⟩

/-- Claim C10: both dataloaders are built over the same dataset
configuration — the CIFAR10 train split with the same preprocess
transform — and with the same batch size 32, so validation runs over
the training data. -/
theorem val_loader_same_dataset (cs : CoolSystem) :
    cs.train_dataloader.dataset = cs.val_dataloader.dataset ∧
      cs.val_dataloader.dataset.train = true ∧
      cs.train_dataloader.dataset.transform = cs.preprocess ∧
      cs.val_dataloader.dataset.transform = cs.preprocess ∧
      cs.train_dataloader.batch_size = 32 ∧ cs.val_dataloader.batch_size = 32 :=
  ⟨rfl, rfl, rfl, rfl, rfl, rfl⟩
